import Mathlib

/-!
Verification development for the animated bottom-drawer component
(`src/bottomDrawer.tsx`).  The drawer's state machine is embedded shallowly:
configuration values that the component receives as props or imports from
its constants module (snap points, initial index and height, screen height,
durations, safe top offset) are fields of `Config`; the component's mutable
state (`modalVisible`, `currentIndex`, `currentDrawerIndex`, `lastPosition`,
`keyboardTriggerSource`) is a `DrawerState` record; starting an animation is
modelled by returning an `Anim` value describing the animation that the code
starts, and a `console.warn` or an `onClose` callback invocation is an
`Event`.  A thrown JavaScript `Error` is `Except.error`; an out-of-bounds
array read (which in JavaScript yields `undefined`) is an `Option` that is
`none`.
-/

namespace BottomDrawer

/-- Easing curves used by the component: `Easing.out(Easing.back(1))` for
opening and `Easing.in(Easing.ease)` for closing. -/
inductive EasingKind
  | easeOutBack
  | easeInEase
deriving DecidableEq, Repr

/-- An animation started on the animated height value: either a timed
animation (`Animated.timing`) with a target, duration and easing, or a
spring (`Animated.spring`) with only a target. -/
inductive Anim
  | timing (toValue : ℤ) (duration : ℤ) (easing : EasingKind)
  | spring (toValue : ℤ)
deriving DecidableEq, Repr

/-- Classification of which input raised the keyboard. -/
inductive TriggerSource
  | internal
  | external
deriving DecidableEq, Repr

/-- Observable side effects other than animations: a `console.warn` call and
an `onClose` callback invocation. -/
inductive Event
  | warned (msg : String)
  | calledOnClose
deriving DecidableEq, Repr

/-- Configuration of the drawer: props with their resolved defaults, plus the
`screenHeight` constant.  `hasOnClose` records whether an `onClose` callback
was supplied (the code guards the call with `onClose && onClose()`). -/
structure Config where
  snapPoints : List ℤ
  initialIndex : ℕ
  initialHeight : ℤ
  enableSnapping : Bool
  safeTopOffset : ℤ
  screenHeight : ℤ
  openDuration : ℤ
  closeDuration : ℤ
  hasOnClose : Bool
deriving DecidableEq, Repr

/-- Mutable state of one drawer instance: the `modalVisible` and
`currentDrawerIndex` React states, the `currentIndex` and `lastPosition`
refs, and the `keyboardTriggerSource` React state. -/
structure DrawerState where
  modalVisible : Bool
  currentIndex : ℤ
  currentDrawerIndex : ℤ
  lastPosition : ℤ
  keyboardTriggerSource : Option TriggerSource
deriving DecidableEq, Repr

/-- State at mount: hidden, index refs at `initialIndex`, `lastPosition`
at `initialHeight`, no recorded keyboard trigger source. -/
def initState (cfg : Config) : DrawerState :=
  { modalVisible := false
    currentIndex := cfg.initialIndex
    currentDrawerIndex := cfg.initialIndex
    lastPosition := cfg.initialHeight
    keyboardTriggerSource := none }

/-- Embedding of `checkIfAvailable`: returns `false` when snapping is
disabled, when `snapPoints.length <= index`, or when `index < 0`; otherwise
`true`. -/
def checkIfAvailable (cfg : Config) (index : ℤ) : Bool :=
  if !cfg.enableSnapping ∨ (cfg.snapPoints.length : ℤ) ≤ index ∨ index < 0 then
    false
  else
    true

/-- Embedding of `handleSnapToIndex`: throws when `checkIfAvailable` fails;
otherwise writes `lastPosition`, `currentIndex` and `currentDrawerIndex` and
starts a spring animation to `screenHeight - snapPoints[index]`.  The inner
`none` branch is unreachable: the availability check guarantees the index is
in bounds. -/
def handleSnapToIndex (cfg : Config) (st : DrawerState) (index : ℤ) :
    Except String (DrawerState × Anim) :=
  if !checkIfAvailable cfg index then
    Except.error "Provided index is out of range of snapPoints!"
  else
    match cfg.snapPoints.get? index.toNat with
    | some v =>
        Except.ok
          ({ st with lastPosition := v, currentIndex := index, currentDrawerIndex := index },
            Anim.spring (cfg.screenHeight - v))
    | none => Except.error "unreachable: checked index not in snapPoints"

/-- State reached by a call that may throw: on a thrown error the original
state is kept (the throw happens before any mutation). -/
def stateAfter (r : Except String (DrawerState × Anim)) (st : DrawerState) : DrawerState :=
  match r with
  | Except.ok p => p.1
  | Except.error _ => st

/-- Same as `stateAfter` for operations that may start several animations. -/
def stateAfterList (r : Except String (DrawerState × List Anim)) (st : DrawerState) :
    DrawerState :=
  match r with
  | Except.ok p => p.1
  | Except.error _ => st

/-- Embedding of `handleOpen`: the target value is
`enableSnapping ? snapPoints[initialIndex] : sheetHeight`; the code sets
`lastPosition`, makes the modal visible and starts a timed animation to
`screenHeight - _val` with the open duration and out-back easing.  When the
array read yields `undefined` (index out of bounds) the result is `none`. -/
def handleOpen (cfg : Config) (st : DrawerState) (sheetHeight : ℤ) :
    Option (DrawerState × Anim) :=
  match (if cfg.enableSnapping then cfg.snapPoints.get? cfg.initialIndex else some sheetHeight) with
  | some v =>
      some ({ st with lastPosition := v, modalVisible := true },
        Anim.timing (cfg.screenHeight - v) cfg.openDuration EasingKind.easeOutBack)
  | none => none

/-- Calling `open()` with no argument: the `sheetHeight` parameter defaults
to `initialHeight`. -/
def handleOpenDefault (cfg : Config) (st : DrawerState) : Option (DrawerState × Anim) :=
  handleOpen cfg st cfg.initialHeight

/-- Embedding of `handleClose`, phase 1: the animation it starts — a timed
animation back to `screenHeight` with the close duration and ease-in easing. -/
def handleCloseAnim (cfg : Config) : Anim :=
  Anim.timing cfg.screenHeight cfg.closeDuration EasingKind.easeInEase

/-- Embedding of `handleClose`, phase 2 (the `.start` completion callback):
invokes `onClose` when supplied, hides the modal and resets
`currentIndex.current` to `0`. -/
def handleCloseComplete (cfg : Config) (st : DrawerState) : DrawerState × List Event :=
  ({ st with modalVisible := false, currentIndex := 0 },
    if cfg.hasOnClose then [Event.calledOnClose] else [])

/-- Embedding of `handleIsOpen`: returns `modalVisible`. -/
def handleIsOpen (st : DrawerState) : Bool :=
  st.modalVisible

/-- The optional `SnapToPositionConfig` argument with its optional
`resetLastPosition` field. -/
structure SnapToPositionConfig where
  resetLastPosition : Option Bool
deriving DecidableEq, Repr

/-- Resolution of `const { resetLastPosition = true } = config || {}`. -/
def resolveResetLastPosition (config : Option SnapToPositionConfig) : Bool :=
  match config with
  | none => true
  | some c => c.resetLastPosition.getD true

/-- Embedding of `handleSnapToPosition`: when the modal is not visible it
only warns; otherwise it overwrites `lastPosition` exactly when
`resetLastPosition` resolves to `true` and starts a spring animation to
`screenHeight - position`. -/
def handleSnapToPosition (cfg : Config) (st : DrawerState) (position : ℤ)
    (config : Option SnapToPositionConfig) : DrawerState × List Anim × List Event :=
  if !st.modalVisible then
    (st, [], [Event.warned "snapToPosition can be used only when bottom drawer is opened"])
  else
    ({ st with
        lastPosition := if resolveResetLastPosition config then position else st.lastPosition },
      [Anim.spring (cfg.screenHeight - position)], [])

/-- Embedding of `findActiveInputInContent`: the placeholder always returns
`false`. -/
def findActiveInputInContent : Bool :=
  false

/-- Embedding of the `onKeyboardChange` callback: on keyboard show it records
`internal` or `external` according to `findActiveInputInContent`; on hide it
clears the record. -/
def onKeyboardChange (st : DrawerState) (isOpen : Bool) : DrawerState :=
  if isOpen then
    let src := if findActiveInputInContent then TriggerSource.internal else TriggerSource.external
    { st with keyboardTriggerSource := some src }
  else
    { st with keyboardTriggerSource := none }

/-- Embedding of the keyboard-snapping effect: when the keyboard is open,
an `external` trigger source snaps to index 0, an `internal` one to index 1,
and no recorded source means no reaction. -/
def keyboardSnapEffect (cfg : Config) (st : DrawerState) (keyboardOpen : Bool) :
    Except String (DrawerState × List Anim) :=
  if keyboardOpen then
    match st.keyboardTriggerSource with
    | some TriggerSource.external =>
        (handleSnapToIndex cfg st 0).map (fun p => (p.1, [p.2]))
    | some TriggerSource.internal =>
        (handleSnapToIndex cfg st 1).map (fun p => (p.1, [p.2]))
    | none => Except.ok (st, [])
  else
    Except.ok (st, [])

/-- Embedding of `onPanResponderMove`: an upward delta past the safe offset
(`dy < -safeTopOffset`) snaps one index up when available, else a downward
delta past it (`dy > safeTopOffset`) snaps one index down when available,
else nothing happens. -/
def onPanResponderMove (cfg : Config) (st : DrawerState) (dy : ℤ) :
    Except String (DrawerState × List Anim) :=
  if dy < -cfg.safeTopOffset ∧ checkIfAvailable cfg (st.currentIndex + 1) then
    (handleSnapToIndex cfg st (st.currentIndex + 1)).map (fun p => (p.1, [p.2]))
  else if dy > cfg.safeTopOffset ∧ checkIfAvailable cfg (st.currentIndex - 1) then
    (handleSnapToIndex cfg st (st.currentIndex - 1)).map (fun p => (p.1, [p.2]))
  else
    Except.ok (st, [])

/-- Embedding of `onPanResponderRelease`: a spring animation back to
`screenHeight - lastPosition.current`. -/
def onPanResponderRelease (cfg : Config) (st : DrawerState) : Anim :=
  Anim.spring (cfg.screenHeight - st.lastPosition)

/-- Sample configuration used to instantiate theorems with hypotheses at
concrete inputs (the spec's example snap points `[100, 300, 500]` with
initial index 1). -/
def sampleConfig : Config :=
  { snapPoints := [100, 300, 500]
    initialIndex := 1
    initialHeight := 420
    enableSnapping := true
    safeTopOffset := 30
    screenHeight := 800
    openDuration := 450
    closeDuration := 300
    hasOnClose := true }

/-- Sample mounted (still hidden) state. -/
def sampleState : DrawerState :=
  initState sampleConfig

/-- Sample state after the drawer has been made visible. -/
def sampleOpenState : DrawerState :=
  { sampleState with modalVisible := true }

/-- Configuration violating the unstated precondition of `handleOpen`:
only one snap point but initial index 1. -/
def badOpenConfig : Config :=
  { snapPoints := [100]
    initialIndex := 1
    initialHeight := 420
    enableSnapping := true
    safeTopOffset := 30
    screenHeight := 800
    openDuration := 450
    closeDuration := 300
    hasOnClose := false }

/-- When `checkIfAvailable` passes, snapping is enabled and the index is in
`[0, snapPoints.length)`. -/
lemma available_bounds (cfg : Config) (index : ℤ)
    (h : checkIfAvailable cfg index = true) :
    cfg.enableSnapping = true ∧ 0 ≤ index ∧ index < (cfg.snapPoints.length : ℤ) := by
  unfold checkIfAvailable at h
  split at h
  · exact absurd h (by simp)
  · rename_i hc
    push_neg at hc
    obtain ⟨he, hlen, hnonneg⟩ := hc
    exact ⟨by simpa using he, by omega, by omega⟩

/-- When `checkIfAvailable` fails, the condition of its guard holds. -/
lemma not_available (cfg : Config) (index : ℤ)
    (h : cfg.enableSnapping = false ∨ index < 0 ∨ (cfg.snapPoints.length : ℤ) ≤ index) :
    checkIfAvailable cfg index = false := by
  unfold checkIfAvailable
  split
  · rfl
  · rename_i hc
    push_neg at hc
    obtain ⟨he, hlen, hnonneg⟩ := hc
    simp only [Bool.not_eq_true] at he
    rcases h with h | h | h
    · simp [h] at he
    · omega
    · omega

/-- When `checkIfAvailable` passes, the array read in `handleSnapToIndex` is
in bounds. -/
lemma get_of_available (cfg : Config) (index : ℤ)
    (h : checkIfAvailable cfg index = true) :
    ∃ v, cfg.snapPoints.get? index.toNat = some v := by
  obtain ⟨-, hnonneg, hlen⟩ := available_bounds cfg index h
  have hlt : index.toNat < cfg.snapPoints.length := by omega
  cases hv : cfg.snapPoints.get? index.toNat with
  | none =>
      have := List.get?_eq_none.mp hv
      omega
  | some v => exact ⟨v, rfl⟩

/-- When `checkIfAvailable` passes, `handleSnapToIndex` succeeds with the
state and spring animation written by the source. -/
lemma snapToIndex_of_available (cfg : Config) (st : DrawerState) (index : ℤ) (v : ℤ)
    (h : checkIfAvailable cfg index = true)
    (hv : cfg.snapPoints.get? index.toNat = some v) :
    handleSnapToIndex cfg st index =
      Except.ok
        ({ st with lastPosition := v, currentIndex := index, currentDrawerIndex := index },
          Anim.spring (cfg.screenHeight - v)) := by
  unfold handleSnapToIndex
  rw [h, hv]
  rfl

/-- When `checkIfAvailable` fails, `handleSnapToIndex` throws. -/
lemma snapToIndex_of_not_available (cfg : Config) (st : DrawerState) (index : ℤ)
    (h : checkIfAvailable cfg index = false) :
    handleSnapToIndex cfg st index =
      Except.error "Provided index is out of range of snapPoints!" := by
  unfold handleSnapToIndex
  rw [h]
  rfl

/-- When snapping is enabled and the index is in `[0, snapPoints.length)`,
`checkIfAvailable` passes. -/
lemma available_of_bounds (cfg : Config) (i : ℤ) (he : cfg.enableSnapping = true)
    (h0 : 0 ≤ i) (hl : i < (cfg.snapPoints.length : ℤ)) :
    checkIfAvailable cfg i = true := by
  unfold checkIfAvailable
  split
  · rename_i hcond
    rcases hcond with h | h | h
    · simp [he] at h
    · omega
    · omega
  · rfl

/-- State with a recorded external keyboard trigger source. -/
def externalTriggerState : DrawerState :=
  { sampleOpenState with keyboardTriggerSource := some TriggerSource.external }

/-- State with a recorded internal keyboard trigger source. -/
def internalTriggerState : DrawerState :=
  { sampleOpenState with keyboardTriggerSource := some TriggerSource.internal }

/-- C1: for every index `i`, calling `snapToIndex i` when snapping is
disabled, or when `i` is negative, or when `i ≥ snapPoints.length`, throws
the out-of-range error synchronously and leaves the drawer state
(`currentIndex`, `lastPosition`, visibility) unchanged. -/
theorem spec_C1 (cfg : Config) (st : DrawerState) (i : ℤ)
    (h : cfg.enableSnapping = false ∨ i < 0 ∨ (cfg.snapPoints.length : ℤ) ≤ i) :
    handleSnapToIndex cfg st i =
      Except.error "Provided index is out of range of snapPoints!" ∧
    stateAfter (handleSnapToIndex cfg st i) st = st := by
  have he := snapToIndex_of_not_available cfg st i (not_available cfg i h)
  exact ⟨he, by rw [he]; rfl⟩

/-- Witness for C1 at index `-1` of the sample configuration. -/
theorem spec_C1_witness :
    handleSnapToIndex sampleConfig sampleState (-1) =
      Except.error "Provided index is out of range of snapPoints!" ∧
    stateAfter (handleSnapToIndex sampleConfig sampleState (-1)) sampleState = sampleState :=
  spec_C1 sampleConfig sampleState (-1) (Or.inr (Or.inl (by decide)))

/-- C2: for every index `i` in `[0, snapPoints.length)` with snapping
enabled, `snapToIndex i` succeeds, sets the current index to `i`, sets
`lastPosition` to `snapPoints[i]`, and starts a spring animation targeting
`screenHeight - snapPoints[i]`. -/
theorem spec_C2 (cfg : Config) (st : DrawerState) (i v : ℤ)
    (he : cfg.enableSnapping = true) (h0 : 0 ≤ i)
    (hl : i < (cfg.snapPoints.length : ℤ))
    (hv : cfg.snapPoints.get? i.toNat = some v) :
    handleSnapToIndex cfg st i =
      Except.ok
        ({ st with lastPosition := v, currentIndex := i, currentDrawerIndex := i },
          Anim.spring (cfg.screenHeight - v)) :=
  snapToIndex_of_available cfg st i v (available_of_bounds cfg i he h0 hl) hv

/-- Witness for C2 at index `2` of the sample configuration. -/
theorem spec_C2_witness :
    handleSnapToIndex sampleConfig sampleState 2 =
      Except.ok
        ({ sampleState with lastPosition := 500, currentIndex := 2, currentDrawerIndex := 2 },
          Anim.spring (sampleConfig.screenHeight - 500)) :=
  spec_C2 sampleConfig sampleState 2 500 rfl (by decide) (by decide) (by decide)

/-- C3: for every height argument, `open` with snapping enabled sets
visibility true and targets the configured initial snap point regardless of
the argument; with snapping disabled it uses the argument, which defaults to
the configured initial height. -/
theorem spec_C3 (cfg : Config) (st : DrawerState) (h : ℤ) :
    (∀ v, cfg.enableSnapping = true →
      cfg.snapPoints.get? cfg.initialIndex = some v →
      handleOpen cfg st h =
        some ({ st with modalVisible := true, lastPosition := v },
          Anim.timing (cfg.screenHeight - v) cfg.openDuration EasingKind.easeOutBack)) ∧
    (cfg.enableSnapping = false →
      handleOpen cfg st h =
        some ({ st with modalVisible := true, lastPosition := h },
          Anim.timing (cfg.screenHeight - h) cfg.openDuration EasingKind.easeOutBack)) ∧
    handleOpenDefault cfg st = handleOpen cfg st cfg.initialHeight := by
  refine ⟨?_, ?_, rfl⟩
  · intro v he hv
    unfold handleOpen
    rw [hv, he]
    rfl
  · intro he
    unfold handleOpen
    rw [he]
    rfl

/-- Witness for C3: the spec's example — snap points `[100, 300, 500]` with
initial index 1 — opens to target `screenHeight - 300` whatever height is
passed. -/
theorem spec_C3_witness :
    handleOpen sampleConfig sampleState 999 =
      some ({ sampleState with modalVisible := true, lastPosition := 300 },
        Anim.timing (sampleConfig.screenHeight - 300) sampleConfig.openDuration
          EasingKind.easeOutBack) ∧
    handleOpenDefault sampleConfig sampleState =
      handleOpen sampleConfig sampleState sampleConfig.initialHeight :=
  ⟨(spec_C3 sampleConfig sampleState 999).1 300 rfl (by decide),
    (spec_C3 sampleConfig sampleState 999).2.2⟩

/-- C4: `close` animates to the fully hidden offset `screenHeight`, and its
completion callback invokes `onClose` (when supplied), makes `isOpen` return
false, and resets the current index to 0. -/
theorem spec_C4 (cfg : Config) (st : DrawerState) :
    handleCloseAnim cfg =
      Anim.timing cfg.screenHeight cfg.closeDuration EasingKind.easeInEase ∧
    handleIsOpen (handleCloseComplete cfg st).1 = false ∧
    (handleCloseComplete cfg st).1.currentIndex = 0 ∧
    (cfg.hasOnClose = true →
      Event.calledOnClose ∈ (handleCloseComplete cfg st).2) := by
  refine ⟨rfl, rfl, rfl, ?_⟩
  intro h
  unfold handleCloseComplete
  simp [h]

/-- Witness for C4 on the sample open state, whose configuration supplies an
`onClose` callback. -/
theorem spec_C4_witness :
    Event.calledOnClose ∈ (handleCloseComplete sampleConfig sampleOpenState).2 ∧
    handleIsOpen (handleCloseComplete sampleConfig sampleOpenState).1 = false ∧
    (handleCloseComplete sampleConfig sampleOpenState).1.currentIndex = 0 :=
  ⟨(spec_C4 sampleConfig sampleOpenState).2.2.2 rfl,
    (spec_C4 sampleConfig sampleOpenState).2.1,
    (spec_C4 sampleConfig sampleOpenState).2.2.1⟩

/-- C5: for every position, `snapToPosition` called while the drawer is not
visible starts no animation, changes no state, and logs a warning rather
than raising an error. -/
theorem spec_C5 (cfg : Config) (st : DrawerState) (p : ℤ)
    (config : Option SnapToPositionConfig) (h : st.modalVisible = false) :
    handleSnapToPosition cfg st p config =
      (st, [], [Event.warned "snapToPosition can be used only when bottom drawer is opened"]) := by
  unfold handleSnapToPosition
  rw [h]
  rfl

/-- Witness for C5 on the hidden sample state. -/
theorem spec_C5_witness :
    handleSnapToPosition sampleConfig sampleState 250 none =
      (sampleState, [],
        [Event.warned "snapToPosition can be used only when bottom drawer is opened"]) :=
  spec_C5 sampleConfig sampleState 250 none rfl

/-- C6: for every position `p`, `snapToPosition` on a visible drawer updates
`lastPosition` to `p` exactly when `resetLastPosition` resolves to true (the
default); when it is false, `lastPosition` is unchanged while the animation
still targets `screenHeight - p`. -/
theorem spec_C6 (cfg : Config) (st : DrawerState) (p : ℤ)
    (config : Option SnapToPositionConfig) (h : st.modalVisible = true) :
    (resolveResetLastPosition config = true →
      handleSnapToPosition cfg st p config =
        ({ st with lastPosition := p }, [Anim.spring (cfg.screenHeight - p)], [])) ∧
    (resolveResetLastPosition config = false →
      handleSnapToPosition cfg st p config =
        (st, [Anim.spring (cfg.screenHeight - p)], [])) ∧
    resolveResetLastPosition none = true := by
  refine ⟨?_, ?_, rfl⟩
  · intro hr
    unfold handleSnapToPosition
    rw [h, hr]
    rfl
  · intro hr
    obtain ⟨mv, ci, cdi, lp, kts⟩ := st
    replace h : mv = true := h
    subst h
    unfold handleSnapToPosition
    rw [hr]
    rfl

/-- Witness for C6 on the visible sample state, with the default
configuration and with `resetLastPosition := false`. -/
theorem spec_C6_witness :
    handleSnapToPosition sampleConfig sampleOpenState 250 none =
      ({ sampleOpenState with lastPosition := 250 },
        [Anim.spring (sampleConfig.screenHeight - 250)], []) ∧
    handleSnapToPosition sampleConfig sampleOpenState 250 (some ⟨some false⟩) =
      (sampleOpenState, [Anim.spring (sampleConfig.screenHeight - 250)], []) :=
  ⟨(spec_C6 sampleConfig sampleOpenState 250 none rfl).1 rfl,
    (spec_C6 sampleConfig sampleOpenState 250 (some ⟨some false⟩) rfl).2.1 rfl⟩

/-- C7: with the keyboard open, an `external` recorded trigger source snaps
so the current index becomes 0, an `internal` one so it becomes 1 (each when
the target index is available, since the effect calls `handleSnapToIndex`),
and no recorded source causes no snap reaction. -/
theorem spec_C7 (cfg : Config) (st : DrawerState) :
    (st.keyboardTriggerSource = some TriggerSource.external →
      checkIfAvailable cfg 0 = true →
      ∃ st2 anims, keyboardSnapEffect cfg st true = Except.ok (st2, anims) ∧
        st2.currentIndex = 0) ∧
    (st.keyboardTriggerSource = some TriggerSource.internal →
      checkIfAvailable cfg 1 = true →
      ∃ st2 anims, keyboardSnapEffect cfg st true = Except.ok (st2, anims) ∧
        st2.currentIndex = 1) ∧
    (st.keyboardTriggerSource = none →
      keyboardSnapEffect cfg st true = Except.ok (st, [])) := by
  refine ⟨?_, ?_, ?_⟩
  · intro hsrc hav
    obtain ⟨v, hv⟩ := get_of_available cfg 0 hav
    have hsnap := snapToIndex_of_available cfg st 0 v hav hv
    have hstep : keyboardSnapEffect cfg st true =
        (handleSnapToIndex cfg st 0).map (fun p => (p.1, [p.2])) := by
      unfold keyboardSnapEffect
      rw [hsrc]
      rfl
    refine ⟨{ st with lastPosition := v, currentIndex := 0, currentDrawerIndex := 0 },
      [Anim.spring (cfg.screenHeight - v)], ?_, rfl⟩
    rw [hstep, hsnap]
    rfl
  · intro hsrc hav
    obtain ⟨v, hv⟩ := get_of_available cfg 1 hav
    have hsnap := snapToIndex_of_available cfg st 1 v hav hv
    have hstep : keyboardSnapEffect cfg st true =
        (handleSnapToIndex cfg st 1).map (fun p => (p.1, [p.2])) := by
      unfold keyboardSnapEffect
      rw [hsrc]
      rfl
    refine ⟨{ st with lastPosition := v, currentIndex := 1, currentDrawerIndex := 1 },
      [Anim.spring (cfg.screenHeight - v)], ?_, rfl⟩
    rw [hstep, hsnap]
    rfl
  · intro hsrc
    unfold keyboardSnapEffect
    rw [hsrc]
    rfl

/-- Witness for C7 on the sample configuration with each trigger source. -/
theorem spec_C7_witness :
    (∃ st2 anims, keyboardSnapEffect sampleConfig externalTriggerState true =
        Except.ok (st2, anims) ∧ st2.currentIndex = 0) ∧
    (∃ st2 anims, keyboardSnapEffect sampleConfig internalTriggerState true =
        Except.ok (st2, anims) ∧ st2.currentIndex = 1) ∧
    keyboardSnapEffect sampleConfig sampleOpenState true =
      Except.ok (sampleOpenState, []) :=
  ⟨(spec_C7 sampleConfig externalTriggerState).1 rfl (by decide),
    (spec_C7 sampleConfig internalTriggerState).2.1 rfl (by decide),
    (spec_C7 sampleConfig sampleOpenState).2.2 rfl⟩

/-- C8: the focus detection is a non-functional stub — it always returns
false, so every keyboard-show event records an `external` trigger source
(never `internal`), and keyboard hide clears the record to `none`. -/
theorem spec_C8 :
    findActiveInputInContent = false ∧
    (∀ st, onKeyboardChange st true =
      { st with keyboardTriggerSource := some TriggerSource.external }) ∧
    (∀ st, onKeyboardChange st false =
      { st with keyboardTriggerSource := none }) ∧
    (∀ st b, (onKeyboardChange st b).keyboardTriggerSource =
      if b then some TriggerSource.external else none) :=
  ⟨rfl, fun _ => rfl, fun _ => rfl, fun _ b => by cases b <;> rfl⟩

/-- C9: during a handle drag, a downward delta past the safe-offset
threshold snaps one index lower when available, an upward delta past it
snaps one index higher when available, a delta whose target index is
unavailable causes no snap, and release always spring-animates to
`screenHeight - lastPosition`. -/
theorem spec_C9 (cfg : Config) (st : DrawerState) (dy : ℤ)
    (hs : 0 ≤ cfg.safeTopOffset) :
    (dy < -cfg.safeTopOffset → checkIfAvailable cfg (st.currentIndex + 1) = true →
      ∃ st2 anims, onPanResponderMove cfg st dy = Except.ok (st2, anims) ∧
        st2.currentIndex = st.currentIndex + 1) ∧
    (dy > cfg.safeTopOffset → checkIfAvailable cfg (st.currentIndex - 1) = true →
      ∃ st2 anims, onPanResponderMove cfg st dy = Except.ok (st2, anims) ∧
        st2.currentIndex = st.currentIndex - 1) ∧
    (dy < -cfg.safeTopOffset → checkIfAvailable cfg (st.currentIndex + 1) = false →
      onPanResponderMove cfg st dy = Except.ok (st, [])) ∧
    (dy > cfg.safeTopOffset → checkIfAvailable cfg (st.currentIndex - 1) = false →
      onPanResponderMove cfg st dy = Except.ok (st, [])) ∧
    onPanResponderRelease cfg st =
      Anim.spring (cfg.screenHeight - st.lastPosition) := by
  refine ⟨?_, ?_, ?_, ?_, rfl⟩
  · intro hdy hav
    obtain ⟨v, hv⟩ := get_of_available cfg (st.currentIndex + 1) hav
    have hsnap := snapToIndex_of_available cfg st (st.currentIndex + 1) v hav hv
    refine ⟨{ st with lastPosition := v, currentIndex := st.currentIndex + 1, currentDrawerIndex := st.currentIndex + 1 }, [Anim.spring (cfg.screenHeight - v)], ?_, rfl⟩
    unfold onPanResponderMove
    rw [if_pos ⟨hdy, hav⟩, hsnap]
    rfl
  · intro hdy hav
    obtain ⟨v, hv⟩ := get_of_available cfg (st.currentIndex - 1) hav
    have hsnap := snapToIndex_of_available cfg st (st.currentIndex - 1) v hav hv
    have hnot : ¬(dy < -cfg.safeTopOffset ∧
        checkIfAvailable cfg (st.currentIndex + 1) = true) := by
      rintro ⟨h1, -⟩
      omega
    refine ⟨{ st with lastPosition := v, currentIndex := st.currentIndex - 1, currentDrawerIndex := st.currentIndex - 1 }, [Anim.spring (cfg.screenHeight - v)], ?_, rfl⟩
    unfold onPanResponderMove
    rw [if_neg hnot, if_pos ⟨hdy, hav⟩, hsnap]
    rfl
  · intro hdy hav
    have h1 : ¬(dy < -cfg.safeTopOffset ∧
        checkIfAvailable cfg (st.currentIndex + 1) = true) := by
      rintro ⟨-, hc⟩
      rw [hav] at hc
      exact Bool.false_ne_true hc
    have h2 : ¬(dy > cfg.safeTopOffset ∧
        checkIfAvailable cfg (st.currentIndex - 1) = true) := by
      rintro ⟨hgt, -⟩
      omega
    unfold onPanResponderMove
    rw [if_neg h1, if_neg h2]
  · intro hdy hav
    have h1 : ¬(dy < -cfg.safeTopOffset ∧
        checkIfAvailable cfg (st.currentIndex + 1) = true) := by
      rintro ⟨hlt, -⟩
      omega
    have h2 : ¬(dy > cfg.safeTopOffset ∧
        checkIfAvailable cfg (st.currentIndex - 1) = true) := by
      rintro ⟨-, hc⟩
      rw [hav] at hc
      exact Bool.false_ne_true hc
    unfold onPanResponderMove
    rw [if_neg h1, if_neg h2]

/-- Witness for C9 on the visible sample state at index 1: an upward drag of
50 snaps to index 2, a downward drag of 50 snaps to index 0, and release
springs back to the last position. -/
theorem spec_C9_witness :
    (∃ st2 anims, onPanResponderMove sampleConfig sampleOpenState (-50) =
        Except.ok (st2, anims) ∧ st2.currentIndex = sampleOpenState.currentIndex + 1) ∧
    (∃ st2 anims, onPanResponderMove sampleConfig sampleOpenState 50 =
        Except.ok (st2, anims) ∧ st2.currentIndex = sampleOpenState.currentIndex - 1) ∧
    onPanResponderRelease sampleConfig sampleOpenState =
      Anim.spring (sampleConfig.screenHeight - sampleOpenState.lastPosition) :=
  ⟨(spec_C9 sampleConfig sampleOpenState (-50) (by decide)).1 (by decide) (by decide),
    (spec_C9 sampleConfig sampleOpenState 50 (by decide)).2.1 (by decide) (by decide),
    (spec_C9 sampleConfig sampleOpenState 0 (by decide)).2.2.2.2⟩

/-- C10: `open` performs no bounds check on the configured initial index:
with snapping enabled its array read is defined exactly when
`initialIndex < snapPoints.length`, and a configuration violating that
precondition (one snap point, initial index 1) makes the lookup out of
bounds, leaving the target offset undefined. -/
theorem spec_C10 :
    (∀ cfg st h, cfg.enableSnapping = true →
      ((handleOpen cfg st h).isSome ↔ cfg.initialIndex < cfg.snapPoints.length)) ∧
    handleOpen badOpenConfig (initState badOpenConfig) 0 = none := by
  constructor
  · intro cfg st h he
    rcases Nat.lt_or_ge cfg.initialIndex cfg.snapPoints.length with hlt | hge
    · cases hg : cfg.snapPoints.get? cfg.initialIndex with
      | none => exact absurd (List.get?_eq_none.mp hg) (by omega)
      | some v =>
          have hsome : (handleOpen cfg st h).isSome = true := by
            unfold handleOpen
            rw [he, hg]
            rfl
          exact iff_of_true hsome hlt
    · have hnone : handleOpen cfg st h = none := by
        unfold handleOpen
        rw [he, List.get?_eq_none.mpr hge]
        rfl
      refine iff_of_false ?_ (by omega)
      intro hc
      rw [hnone] at hc
      exact Bool.false_ne_true hc
  · rfl

/-- Witness for C10: the sample configuration satisfies the in-bounds
characterization. -/
theorem spec_C10_witness :
    ((handleOpen sampleConfig sampleState 0).isSome ↔
      sampleConfig.initialIndex < sampleConfig.snapPoints.length) ∧
    handleOpen badOpenConfig (initState badOpenConfig) 0 = none :=
  ⟨spec_C10.1 sampleConfig sampleState 0 rfl, spec_C10.2⟩

end BottomDrawer
